import Mathlib

/-!
Verification development for the shadow-flicker calendar core of the
`shadow_orography` repository: the solar time-index generator
(`core/solar.py`), the shadow-ellipse geometry builder and intersection
pre-check (`core/geometry.py`), and the calendar engine
(`core/calendar.py`).

Numbers handled by the calendar layer are modelled as rationals (every
Python float value is a rational number); the mathematical content of the
trigonometric shadow geometry is modelled over the reals.
-/

/-! ### Solar time-index generator (`core/solar.py`) -/

/-- Gregorian leap-year rule; this is the calendar arithmetic behind
`pd.Timestamp(year, 1, 1)` versus `pd.Timestamp(year + 1, 1, 1)`. -/
def isLeapYear (y : ℕ) : Bool :=
  (y % 4 == 0 && y % 100 != 0) || (y % 400 == 0)

/-- Number of days between Jan 1 of `y` and Jan 1 of `y + 1`. -/
def daysInYear (y : ℕ) : ℕ :=
  if isLeapYear y then 366 else 365

/-- Length of the year `y` in minutes of absolute time.  For the IANA
zones used by the application a calendar year spans exactly this much
absolute time (any daylight-saving shift in spring is undone in autumn
within the same Jan-1-to-Jan-1 span). -/
def minutesInYear (y : ℕ) : ℕ :=
  1440 * daysInYear y

/-- Model of `zoneinfo.ZoneInfo` resolution in `make_yearly_time_index`:
`try: ZoneInfo(timezone) except ZoneInfoNotFoundError` falls back to
"UTC" and emits a `RuntimeWarning`.  The zone database is abstracted as
the list `known` of recognized identifiers; the second component records
whether the warning was raised. -/
def resolve_timezone (known : List String) (tz : String) : String × Bool :=
  if tz ∈ known then (tz, false) else ("UTC", true)

/-- Model of `pd.date_range(start, end, inclusive="left", freq=step)`
with a fixed positive `step` in minutes: the arithmetic progression
`start, start + step, ...` of every instant lying in `[start, stop)`. -/
def date_range_left (start stop step : ℕ) : List ℕ :=
  (List.range ((stop - start + step - 1) / step)).map (fun k => start + k * step)

/-- Result of `make_yearly_time_index`: the resolved timezone name, the
warning flag, and the generated instants (in minutes of absolute time
from the local Jan 1 00:00 of the requested year). -/
structure TimeIndex where
  tz : String
  warned : Bool
  times : List ℕ
  deriving Repr

/-- Model of `make_yearly_time_index(year, timezone, timestep_minutes)`
from `core/solar.py`: resolve the timezone (falling back to UTC with a
warning), then generate the left-inclusive range from local Jan 1 00:00
of `year` to local Jan 1 00:00 of `year + 1`. -/
def make_yearly_time_index (known : List String) (year : ℕ)
    (timezone : String) (timestep_minutes : ℕ) : TimeIndex :=
  let rt := resolve_timezone known timezone
  { tz := rt.1
    warned := rt.2
    times := date_range_left 0 (minutesInYear year) timestep_minutes }

/-! ### Helper lemmas about the generated range -/

lemma lt_ceil_div_iff (L m k : ℕ) (hm : 0 < m) :
    k < (L + m - 1) / m ↔ k * m < L := by
  rw [Nat.lt_iff_add_one_le, Nat.le_div_iff_mul_le hm, add_one_mul]
  omega

lemma mem_date_range_left (L m t : ℕ) (hm : 0 < m) :
    t ∈ date_range_left 0 L m ↔ m ∣ t ∧ t < L := by
  unfold date_range_left
  simp only [List.mem_map, List.mem_range, Nat.sub_zero, zero_add]
  constructor
  · rintro ⟨k, hk, rfl⟩
    rw [lt_ceil_div_iff L m k hm] at hk
    exact ⟨⟨k, by ring⟩, by omega⟩
  · rintro ⟨⟨k, rfl⟩, ht⟩
    refine ⟨k, ?_, by ring⟩
    rw [lt_ceil_div_iff L m k hm, mul_comm]
    omega

lemma date_range_left_getElem (L m i : ℕ)
    (hi : i < (date_range_left 0 L m).length) :
    (date_range_left 0 L m)[i]? = some (i * m) := by
  unfold date_range_left at hi ⊢
  rw [List.getElem?_map, List.getElem?_range (by simpa using hi)]
  simp

lemma date_range_left_sorted (L m : ℕ) (hm : 0 < m) :
    (date_range_left 0 L m).Pairwise (· < ·) := by
  unfold date_range_left
  refine List.pairwise_map.2 ?_
  refine List.pairwise_lt_range _ |>.imp ?_
  intro a b hab
  have := (Nat.mul_lt_mul_right hm).2 hab
  omega

lemma date_range_left_length_sixty (L24 : ℕ) :
    (date_range_left 0 (1440 * L24) 60).length = 24 * L24 := by
  unfold date_range_left
  rw [List.length_map, List.length_range]
  omega

/-! ### Claims C4 and C5: the yearly time index -/

/-- C4: for every year, recognized timezone, and positive
`timestep_minutes`, `make_yearly_time_index` keeps the requested zone
without warning, and its instants are exactly the multiples of the step
from local Jan 1 00:00 (inclusive, instant `0`) up to the following
local Jan 1 00:00 (exclusive, instant `minutesInYear year`), listed in
step order; with a 60-minute step the count is exactly 365×24 for a
non-leap year and 366×24 for a leap year. -/
theorem c4_make_yearly_time_index_correct (known : List String) (year : ℕ)
    (tz : String) (m : ℕ) (htz : tz ∈ known) (hm : 0 < m) :
    (make_yearly_time_index known year tz m).tz = tz ∧
    (make_yearly_time_index known year tz m).warned = false ∧
    (∀ t : ℕ, t ∈ (make_yearly_time_index known year tz m).times ↔
      m ∣ t ∧ t < minutesInYear year) ∧
    (∀ i : ℕ, i < (make_yearly_time_index known year tz m).times.length →
      (make_yearly_time_index known year tz m).times[i]? = some (i * m)) ∧
    (m = 60 → (make_yearly_time_index known year tz m).times.length =
      (if isLeapYear year then 366 else 365) * 24) := by
  unfold make_yearly_time_index resolve_timezone
  simp only [if_pos htz]
  refine ⟨by trivial, by trivial, ?_, ?_, ?_⟩
  · intro t
    exact mem_date_range_left (minutesInYear year) m t hm
  · intro i hi
    simpa using date_range_left_getElem (minutesInYear year) m i hi
  · rintro rfl
    show (date_range_left 0 (1440 * daysInYear year) 60).length = _
    rw [date_range_left_length_sixty (daysInYear year)]
    unfold daysInYear
    by_cases h : isLeapYear year <;> simp [h]

/-- Witness for C4 at year 2023 (non-leap), zone "Europe/Rome",
60-minute step. -/
theorem c4_witness :
    (make_yearly_time_index ["Europe/Rome"] 2023 "Europe/Rome" 60).tz =
      "Europe/Rome" ∧
    (make_yearly_time_index ["Europe/Rome"] 2023 "Europe/Rome" 60).warned =
      false ∧
    (∀ t : ℕ,
      t ∈ (make_yearly_time_index ["Europe/Rome"] 2023 "Europe/Rome" 60).times ↔
      60 ∣ t ∧ t < minutesInYear 2023) ∧
    (∀ i : ℕ,
      i < (make_yearly_time_index ["Europe/Rome"] 2023 "Europe/Rome" 60).times.length →
      (make_yearly_time_index ["Europe/Rome"] 2023 "Europe/Rome" 60).times[i]? =
        some (i * 60)) ∧
    (60 = 60 →
      (make_yearly_time_index ["Europe/Rome"] 2023 "Europe/Rome" 60).times.length =
      (if isLeapYear 2023 then 366 else 365) * 24) :=
  c4_make_yearly_time_index_correct ["Europe/Rome"] 2023 "Europe/Rome" 60
    (List.mem_singleton.mpr rfl) (by norm_num)

/-- C5: for every unrecognized timezone identifier, the generator still
returns a result (it is a total function), resolved to "UTC", with the
warning flag raised, and with exactly as many instants as any recognized
zone would produce for the same year and step. -/
theorem c5_unknown_timezone_fallback (known : List String) (year : ℕ)
    (tz : String) (m : ℕ) (htz : tz ∉ known) :
    (make_yearly_time_index known year tz m).tz = "UTC" ∧
    (make_yearly_time_index known year tz m).warned = true ∧
    ∀ tz2 : String, tz2 ∈ known →
      (make_yearly_time_index known year tz m).times.length =
      (make_yearly_time_index known year tz2 m).times.length := by
  unfold make_yearly_time_index resolve_timezone
  simp only [if_neg htz]
  exact ⟨by trivial, by trivial, fun tz2 h2 => by simp only [if_pos h2]⟩

/-- Witness for C5 on the literally unrecognized zone used by the
repository's own test suite. -/
theorem c5_witness :
    (make_yearly_time_index ["Europe/Rome"] 2024 "Invalid/Timezone" 60).tz =
      "UTC" ∧
    (make_yearly_time_index ["Europe/Rome"] 2024 "Invalid/Timezone" 60).warned =
      true ∧
    ∀ tz2 : String, tz2 ∈ ["Europe/Rome"] →
      (make_yearly_time_index ["Europe/Rome"] 2024 "Invalid/Timezone" 60).times.length =
      (make_yearly_time_index ["Europe/Rome"] 2024 tz2 60).times.length :=
  c5_unknown_timezone_fallback ["Europe/Rome"] 2024 "Invalid/Timezone" 60
    (by decide)

/-! ### Polygon model and the intersection pre-check (`core/geometry.py`) -/

/-- Model of a planar polygon as seen by `intersects_fast`: the set of
points covered by the filled polygon together with its axis-aligned
bounds as returned by the `.bounds` property.  An empty geometry has no
usable bounds (the library returns NaN bounds, on which every `<`
comparison is false; modelled here by `none`), and its carrier is empty.
For a nonempty geometry the bounds `(minx, miny, maxx, maxy)` enclose
every covered point. -/
structure Polygon where
  carrier : Set (ℚ × ℚ)
  bounds : Option (ℚ × ℚ × ℚ × ℚ)
  bounds_none : bounds = none → carrier = ∅
  bounds_mem : ∀ b, bounds = some b → ∀ p ∈ carrier,
    b.1 ≤ p.1 ∧ b.2.1 ≤ p.2 ∧ p.1 ≤ b.2.2.1 ∧ p.2 ≤ b.2.2.2

/-- Exact, non-strict polygon intersection: the two filled point sets
share at least one point (touching boundaries count).  This is the
geometric predicate that the library's exact `aoi_polygon.intersects`
decides. -/
def exact_intersects (P Q : Polygon) : Prop :=
  (P.carrier ∩ Q.carrier).Nonempty

open Classical in
/-- Boolean form of the exact intersection predicate, modelling the
library's exact `.intersects` test. -/
noncomputable def exact_intersectsB (P Q : Polygon) : Bool :=
  decide (exact_intersects P Q)

/-- Bounding-box disjointness pre-check, line for line from
`intersects_fast`: `maxx1 < minx2 or maxx2 < minx1 or maxy1 < miny2 or
maxy2 < miny1`.  If either geometry is empty (NaN bounds) every
comparison is false and the pre-check does not fire. -/
def bbox_disjoint (P Q : Polygon) : Bool :=
  match P.bounds, Q.bounds with
  | some (minx1, miny1, maxx1, maxy1), some (minx2, miny2, maxx2, maxy2) =>
    decide (maxx1 < minx2) || decide (maxx2 < minx1) ||
    decide (maxy1 < miny2) || decide (maxy2 < miny1)
  | _, _ => false

/-- Model of `intersects_fast(aoi_polygon, candidate)` from
`core/geometry.py`: short-circuit to `false` on bounding-box
disjointness, otherwise fall back to the exact test. -/
noncomputable def intersects_fast (aoi_polygon candidate : Polygon) : Bool :=
  if bbox_disjoint aoi_polygon candidate then false
  else exact_intersectsB aoi_polygon candidate

/-! ### Claim C1: the pre-check is a pure optimization -/

/-- C1: for every pair of polygons, `intersects_fast` returns the same
boolean as the exact non-strict intersection predicate; the bounding-box
pre-check can only answer `false` when the polygons truly share no
point. -/
theorem c1_intersects_fast_agrees_with_exact (P Q : Polygon) :
    intersects_fast P Q = exact_intersectsB P Q ∧
    (intersects_fast P Q = true ↔ exact_intersects P Q) := by
  classical
  have hmain : intersects_fast P Q = exact_intersectsB P Q := by
    unfold intersects_fast
    by_cases hB : bbox_disjoint P Q
    · rw [if_pos hB]
      have hnone : ¬ exact_intersects P Q := by
        rintro ⟨p, hpP, hpQ⟩
        unfold bbox_disjoint at hB
        split at hB
        · rename_i minx1 miny1 maxx1 maxy1 minx2 miny2 maxx2 maxy2 hPb hQb
          obtain ⟨ha1, hb1, hc1, hd1⟩ := P.bounds_mem _ hPb p hpP
          obtain ⟨ha2, hb2, hc2, hd2⟩ := Q.bounds_mem _ hQb p hpQ
          simp only [Bool.or_eq_true, decide_eq_true_eq] at hB
          rcases hB with ((h | h) | h) | h <;> linarith
        · exact Bool.noConfusion hB
      unfold exact_intersectsB
      simp [hnone]
    · rw [if_neg hB]
  refine ⟨hmain, ?_⟩
  rw [hmain]
  unfold exact_intersectsB
  exact ⟨fun h => of_decide_eq_true h, fun h => decide_eq_true h⟩

/-! ### Calendar engine data model (`core/shadow_model.py`, `core/calendar.py`) -/

/-- Wind turbine definition in planar map coordinates, from
`core/shadow_model.py`. -/
structure Turbine where
  turbine_id : String
  x : ℚ
  y : ℚ
  hub_height_m : ℚ
  rotor_diameter_m : ℚ

/-- Derived rotor radius, `rotor_diameter_m / 2.0`. -/
def Turbine.rotor_radius_m (t : Turbine) : ℚ :=
  t.rotor_diameter_m / 2

/-- Project-level parameters used for calendar generation, from
`core/shadow_model.py`. -/
structure ProjectParameters where
  latitude : ℚ
  longitude : ℚ
  year : ℕ
  min_solar_elevation_deg : ℚ
  timezone : String
  timestep_minutes : ℕ

/-- One row of the solar-position table: the timestamp key together with
its apparent elevation and azimuth. -/
structure SolarSample where
  timestamp : ℕ
  apparent_elevation : ℚ
  azimuth : ℚ

/-- Model of `compute_solar_position(times, latitude, longitude)`: the
pvlib solar-position algorithm is abstracted as a function `solarpos`
from a timestamp to its (apparent elevation, azimuth) pair; each
timestamp yields one row, in input order. -/
def compute_solar_position (solarpos : ℕ → ℚ × ℚ) (times : List ℕ) :
    List SolarSample :=
  times.map (fun t => ⟨t, (solarpos t).1, (solarpos t).2⟩)

/-- Model of `filter_daylight` from `core/solar.py`: keep the rows whose
apparent elevation is strictly above the threshold, preserving order. -/
def filter_daylight (solar : List SolarSample)
    (min_solar_elevation_deg : ℚ) : List SolarSample :=
  solar.filter (fun s => min_solar_elevation_deg < s.apparent_elevation)

/-- One output row dictionary of the calendar engine.  The `date`/`time`
split of the local timestamp is modelled as day index and
minute-of-day. -/
structure FlickerEvent where
  turbine_id : String
  timestamp_local : ℕ
  date : ℕ
  time : ℕ
  sun_azimuth_deg : ℚ
  sun_elevation_deg : ℚ
  deriving Repr, DecidableEq

/-- Column layout of a nonempty result: the keys of each row dictionary
in insertion order. -/
def flickerColumns : List String :=
  ["turbine_id", "timestamp_local", "date", "time",
   "sun_azimuth_deg", "sun_elevation_deg"]

/-- Model of a pandas data frame holding the result: its column list and
its rows. -/
structure DataFrame where
  columns : List String
  records : List FlickerEvent
  deriving Repr, DecidableEq

/-- Model of `pd.DataFrame(rows)` on a list of row dictionaries that all
share the six `FlickerEvent` keys: an empty list yields an empty frame
with no columns at all, while a nonempty list yields the six-column
layout inferred from the dictionary keys. -/
def mkDataFrame (rows : List FlickerEvent) : DataFrame :=
  { columns := if rows.isEmpty then [] else flickerColumns
    records := rows }

/-- Row dictionary appended for an intersecting (timestamp, turbine)
pair in `compute_shadow_calendar`. -/
def mkRow (turbine : Turbine) (s : SolarSample) : FlickerEvent :=
  { turbine_id := turbine.turbine_id
    timestamp_local := s.timestamp
    date := s.timestamp / 1440
    time := s.timestamp % 1440
    sun_azimuth_deg := s.azimuth
    sun_elevation_deg := s.apparent_elevation }

section CalendarEngine

variable {Aoi Poly : Type}

/-- Model of `compute_shadow_calendar(aoi_polygon, turbines, parameters)`
from `core/calendar.py`.  The external geometric collaborators enter as
parameters: `shadow_poly` stands for `shadow_ellipse_polygon` (whose
real-valued geometry is analysed separately in this file) and `hit` for
`intersects_fast`; `solarpos` stands for the pvlib solar-position
algorithm and `known` for the timezone database.  The time-index
construction, daylight filtering, nested loops over daylight samples and
turbines, and the row accumulation follow the source line by line. -/
def compute_shadow_calendar
    (shadow_poly : ℚ → ℚ → ℚ → ℚ → ℚ → ℚ → Poly)
    (hit : Aoi → Poly → Bool)
    (solarpos : ℕ → ℚ × ℚ) (known : List String)
    (aoi_polygon : Aoi) (turbines : List Turbine)
    (parameters : ProjectParameters) : DataFrame :=
  let times := (make_yearly_time_index known parameters.year
      parameters.timezone parameters.timestep_minutes).times
  let solar := compute_solar_position solarpos times
  let solar_daylight := filter_daylight solar parameters.min_solar_elevation_deg
  let rows := solar_daylight.foldl (fun rows s =>
    turbines.foldl (fun rows turbine =>
      let candidate := shadow_poly turbine.x turbine.y turbine.hub_height_m
        turbine.rotor_radius_m s.azimuth s.apparent_elevation
      if hit aoi_polygon candidate then rows ++ [mkRow turbine s] else rows)
      rows) []
  mkDataFrame rows

/-- Declarative form of the body of the inner loop: the row emitted for
one (sample, turbine) pair, if any. -/
def emitRow (shadow_poly : ℚ → ℚ → ℚ → ℚ → ℚ → ℚ → Poly)
    (hit : Aoi → Poly → Bool) (aoi_polygon : Aoi) (s : SolarSample)
    (turbine : Turbine) : Option FlickerEvent :=
  if hit aoi_polygon (shadow_poly turbine.x turbine.y turbine.hub_height_m
      turbine.rotor_radius_m s.azimuth s.apparent_elevation) then
    some (mkRow turbine s)
  else none

lemma foldl_if_append {α β : Type} (c : α → Bool) (g : α → β) (l : List α)
    (acc : List β) :
    l.foldl (fun acc a => if c a then acc ++ [g a] else acc) acc
      = acc ++ l.filterMap (fun a => if c a then some (g a) else none) := by
  induction l generalizing acc with
  | nil => simp
  | cons a l ih => by_cases h : c a <;> simp [h, ih]

lemma calendar_rows_eq (shadow_poly : ℚ → ℚ → ℚ → ℚ → ℚ → ℚ → Poly)
    (hit : Aoi → Poly → Bool) (aoi_polygon : Aoi) (turbines : List Turbine)
    (daylight : List SolarSample) (acc : List FlickerEvent) :
    daylight.foldl (fun rows s =>
      turbines.foldl (fun rows turbine =>
        let candidate := shadow_poly turbine.x turbine.y turbine.hub_height_m
          turbine.rotor_radius_m s.azimuth s.apparent_elevation
        if hit aoi_polygon candidate then rows ++ [mkRow turbine s] else rows)
        rows) acc
      = acc ++ daylight.flatMap (fun s =>
          turbines.filterMap (emitRow shadow_poly hit aoi_polygon s)) := by
  induction daylight generalizing acc with
  | nil => simp
  | cons s l ih =>
    rw [List.foldl_cons, ih, List.flatMap_cons]
    have hinner := foldl_if_append
      (fun turbine => hit aoi_polygon (shadow_poly turbine.x turbine.y
        turbine.hub_height_m turbine.rotor_radius_m s.azimuth
        s.apparent_elevation))
      (fun turbine => mkRow turbine s) turbines acc
    simp only [] at hinner
    rw [hinner, List.append_assoc]
    rfl

/-- Records of the computed calendar, in declarative form: one optional
row per (daylight sample, turbine) pair, grouped by sample in sample
order and by turbine in input order within each group. -/
lemma compute_shadow_calendar_records
    (shadow_poly : ℚ → ℚ → ℚ → ℚ → ℚ → ℚ → Poly) (hit : Aoi → Poly → Bool)
    (solarpos : ℕ → ℚ × ℚ) (known : List String) (aoi_polygon : Aoi)
    (turbines : List Turbine) (parameters : ProjectParameters) :
    (compute_shadow_calendar shadow_poly hit solarpos known aoi_polygon
        turbines parameters).records
      = (filter_daylight
          (compute_solar_position solarpos
            (make_yearly_time_index known parameters.year parameters.timezone
              parameters.timestep_minutes).times)
          parameters.min_solar_elevation_deg).flatMap (fun s =>
            turbines.filterMap (emitRow shadow_poly hit aoi_polygon s)) := by
  simp only [compute_shadow_calendar]
  rw [calendar_rows_eq]
  rfl

end CalendarEngine

/-! ### Claim C3: emission and ordering contract of the calendar -/

lemma mem_solar_determined (solarpos : ℕ → ℚ × ℚ) (times : List ℕ)
    (s : SolarSample) (hs : s ∈ compute_solar_position solarpos times) :
    s = ⟨s.timestamp, (solarpos s.timestamp).1, (solarpos s.timestamp).2⟩ := by
  unfold compute_solar_position at hs
  obtain ⟨t, _, rfl⟩ := List.mem_map.1 hs
  rfl

lemma solar_position_pairwise (solarpos : ℕ → ℚ × ℚ) (times : List ℕ)
    (h : times.Pairwise (· < ·)) :
    (compute_solar_position solarpos times).Pairwise
      (fun a b => a.timestamp < b.timestamp) := by
  unfold compute_solar_position
  exact List.pairwise_map.2 h

lemma pairwise_flatMap_key (daylight : List SolarSample)
    (block : SolarSample → List FlickerEvent)
    (hkey : ∀ s : SolarSample, ∀ e ∈ block s, e.timestamp_local = s.timestamp)
    (hd : daylight.Pairwise (fun a b => a.timestamp < b.timestamp)) :
    (daylight.flatMap block).Pairwise
      (fun e1 e2 => e1.timestamp_local ≤ e2.timestamp_local) := by
  induction daylight with
  | nil => simp
  | cons s l ih =>
    rw [List.flatMap_cons]
    rcases List.pairwise_cons.1 hd with ⟨hs, hl⟩
    refine List.pairwise_append.2 ⟨?_, ih hl, ?_⟩
    · refine List.pairwise_of_forall_mem_list ?_
      intro e1 h1 e2 h2
      rw [hkey s e1 h1, hkey s e2 h2]
    · intro e1 h1 e2 h2
      obtain ⟨s2, hs2, he2⟩ := List.mem_flatMap.1 h2
      rw [hkey s e1 h1, hkey s2 e2 he2]
      exact le_of_lt (hs s2 hs2)

lemma filter_key_flatMap (block : SolarSample → List FlickerEvent)
    (hkey : ∀ s : SolarSample, ∀ e ∈ block s, e.timestamp_local = s.timestamp)
    (daylight : List SolarSample)
    (hd : daylight.Pairwise (fun a b => a.timestamp < b.timestamp)) :
    ∀ s ∈ daylight,
      (daylight.flatMap block).filter
          (fun e => e.timestamp_local == s.timestamp) = block s := by
  induction daylight with
  | nil => simp
  | cons a l ih =>
    intro s hs
    rw [List.flatMap_cons, List.filter_append]
    rcases List.pairwise_cons.1 hd with ⟨ha, hl⟩
    rcases List.mem_cons.1 hs with rfl | hsl
    · have h1 : (block s).filter
          (fun e => e.timestamp_local == s.timestamp) = block s := by
        refine List.filter_eq_self.2 ?_
        intro e he
        simp [hkey s e he]
      have h2 : (l.flatMap block).filter
          (fun e => e.timestamp_local == s.timestamp) = [] := by
        refine List.filter_eq_nil_iff.2 ?_
        intro e he
        obtain ⟨s2, hs2, he2⟩ := List.mem_flatMap.1 he
        have hk := hkey s2 e he2
        have hlt := ha s2 hs2
        simp only [hk, beq_iff_eq]
        omega
      rw [h1, h2, List.append_nil]
    · have h1 : (block a).filter
          (fun e => e.timestamp_local == s.timestamp) = [] := by
        refine List.filter_eq_nil_iff.2 ?_
        intro e he
        have hk := hkey a e he
        have hlt := ha s hsl
        simp only [hk, beq_iff_eq]
        omega
      rw [h1, List.nil_append]
      exact ih hl s hsl

lemma emitRow_key {Aoi Poly : Type}
    (shadow_poly : ℚ → ℚ → ℚ → ℚ → ℚ → ℚ → Poly) (hit : Aoi → Poly → Bool)
    (aoi_polygon : Aoi) (s : SolarSample) (turbines : List Turbine) :
    ∀ e ∈ turbines.filterMap (emitRow shadow_poly hit aoi_polygon s),
      e.timestamp_local = s.timestamp := by
  intro e he
  obtain ⟨turbine, _, hemit⟩ := List.mem_filterMap.1 he
  unfold emitRow at hemit
  split at hemit
  · cases hemit
    rfl
  · exact Option.noConfusion hemit

/-- C3: the calendar emits, in declarative form, exactly one record per
(daylight sample, turbine) pair whose shadow polygon intersects the AOI;
the emitted sequence is non-decreasing in the timestamp, within each
daylight timestamp the records are exactly the intersecting turbines in
input order, and no record is emitted for a sample at or below the
elevation threshold. -/
theorem c3_calendar_emission_and_order {Aoi Poly : Type}
    (shadow_poly : ℚ → ℚ → ℚ → ℚ → ℚ → ℚ → Poly) (hit : Aoi → Poly → Bool)
    (solarpos : ℕ → ℚ × ℚ) (known : List String) (aoi_polygon : Aoi)
    (turbines : List Turbine) (parameters : ProjectParameters)
    (hstep : 0 < parameters.timestep_minutes) :
    let solar := compute_solar_position solarpos
      (make_yearly_time_index known parameters.year parameters.timezone
        parameters.timestep_minutes).times
    let daylight := filter_daylight solar parameters.min_solar_elevation_deg
    let out := (compute_shadow_calendar shadow_poly hit solarpos known
      aoi_polygon turbines parameters).records
    (out = daylight.flatMap (fun s =>
        turbines.filterMap (emitRow shadow_poly hit aoi_polygon s))) ∧
    out.Pairwise (fun e1 e2 => e1.timestamp_local ≤ e2.timestamp_local) ∧
    (∀ s ∈ daylight,
      out.filter (fun e => e.timestamp_local == s.timestamp)
        = turbines.filterMap (emitRow shadow_poly hit aoi_polygon s)) ∧
    (∀ s ∈ solar, s.apparent_elevation ≤ parameters.min_solar_elevation_deg →
      ∀ e ∈ out, e.timestamp_local ≠ s.timestamp) := by
  intro solar daylight out
  have hrec : out = daylight.flatMap (fun s =>
      turbines.filterMap (emitRow shadow_poly hit aoi_polygon s)) :=
    compute_shadow_calendar_records shadow_poly hit solarpos known
      aoi_polygon turbines parameters
  have hsorted : solar.Pairwise (fun a b => a.timestamp < b.timestamp) :=
    solar_position_pairwise solarpos _
      (date_range_left_sorted (minutesInYear parameters.year)
        parameters.timestep_minutes hstep)
  have hdaylight : daylight.Pairwise (fun a b => a.timestamp < b.timestamp) :=
    List.Pairwise.sublist (List.filter_sublist _) hsorted
  have hkey : ∀ s : SolarSample,
      ∀ e ∈ turbines.filterMap (emitRow shadow_poly hit aoi_polygon s),
        e.timestamp_local = s.timestamp :=
    fun s => emitRow_key shadow_poly hit aoi_polygon s turbines
  refine ⟨hrec, ?_, ?_, ?_⟩
  · rw [hrec]
    exact pairwise_flatMap_key daylight _ hkey hdaylight
  · intro s hs
    rw [hrec]
    exact filter_key_flatMap _ hkey daylight hdaylight s hs
  · intro s hs hle e he heq
    rw [hrec] at he
    obtain ⟨s2, hs2, he2⟩ := List.mem_flatMap.1 he
    have hk2 : e.timestamp_local = s2.timestamp := hkey s2 e he2
    have hs2' := List.mem_filter.1 hs2
    have hsdet := mem_solar_determined solarpos _ s hs
    have hs2det := mem_solar_determined solarpos _ s2 hs2'.1
    have hts : s2.timestamp = s.timestamp := by rw [← hk2, heq]
    have hss : s2 = s := by rw [hs2det, hsdet, hts]
    have := hs2'.2
    rw [hss] at this
    simp only [decide_eq_true_eq] at this
    linarith

/-- Witness for C3: a concrete one-turbine run with a trivially hitting
geometry oracle, year 2024, UTC, 60-minute step. -/
theorem c3_witness :
    let solar := compute_solar_position (fun _ => ((10 : ℚ), (100 : ℚ)))
      (make_yearly_time_index ["UTC"] 2024 "UTC" 60).times
    let daylight := filter_daylight solar 5
    let out := (compute_shadow_calendar (fun _ _ _ _ _ _ => ())
      (fun _ _ => true) (fun _ => ((10 : ℚ), (100 : ℚ))) ["UTC"] ()
      [⟨"T-1", 0, 0, 100, 120⟩] ⟨45, 10, 2024, 5, "UTC", 60⟩).records
    (out = daylight.flatMap (fun s =>
        [(⟨"T-1", 0, 0, 100, 120⟩ : Turbine)].filterMap
          (emitRow (fun _ _ _ _ _ _ => ()) (fun _ _ => true) () s))) ∧
    out.Pairwise (fun e1 e2 => e1.timestamp_local ≤ e2.timestamp_local) ∧
    (∀ s ∈ daylight,
      out.filter (fun e => e.timestamp_local == s.timestamp)
        = [(⟨"T-1", 0, 0, 100, 120⟩ : Turbine)].filterMap
            (emitRow (fun _ _ _ _ _ _ => ()) (fun _ _ => true) () s)) ∧
    (∀ s ∈ solar, s.apparent_elevation ≤ 5 →
      ∀ e ∈ out, e.timestamp_local ≠ s.timestamp) :=
  c3_calendar_emission_and_order (fun _ _ _ _ _ _ => ()) (fun _ _ => true)
    (fun _ => ((10 : ℚ), (100 : ℚ))) ["UTC"] () [⟨"T-1", 0, 0, 100, 120⟩]
    ⟨45, 10, 2024, 5, "UTC", 60⟩ (by norm_num)

/-! ### Claims C9 and C10: empty inputs and the empty result frame -/

lemma intersects_fast_of_empty_carrier (P : Polygon) (hP : P.carrier = ∅)
    (Q : Polygon) : intersects_fast P Q = false := by
  classical
  have hnone : ¬ exact_intersects P Q := by
    rintro ⟨p, hp, _⟩
    rw [hP] at hp
    exact hp
  unfold intersects_fast exact_intersectsB
  by_cases hB : bbox_disjoint P Q
  · rw [if_pos hB]
  · rw [if_neg hB, decide_eq_false hnone]

lemma compute_shadow_calendar_of_no_hit {Aoi Poly : Type}
    (shadow_poly : ℚ → ℚ → ℚ → ℚ → ℚ → ℚ → Poly) (hit : Aoi → Poly → Bool)
    (solarpos : ℕ → ℚ × ℚ) (known : List String) (aoi_polygon : Aoi)
    (turbines : List Turbine) (parameters : ProjectParameters)
    (hmiss : ∀ p : Poly, hit aoi_polygon p = false) :
    compute_shadow_calendar shadow_poly hit solarpos known aoi_polygon
      turbines parameters = ⟨[], []⟩ := by
  have hr : (compute_shadow_calendar shadow_poly hit solarpos known
      aoi_polygon turbines parameters).records = [] := by
    rw [compute_shadow_calendar_records]
    refine List.flatMap_eq_nil_iff.2 ?_
    intro s _
    refine List.filterMap_eq_nil_iff.2 ?_
    intro turbine _
    unfold emitRow
    rw [hmiss, if_neg]
    simp
  calc compute_shadow_calendar shadow_poly hit solarpos known aoi_polygon
        turbines parameters
      = mkDataFrame (compute_shadow_calendar shadow_poly hit solarpos known
          aoi_polygon turbines parameters).records := rfl
    _ = mkDataFrame [] := by rw [hr]
    _ = ⟨[], []⟩ := rfl

/-- Empty geometry: no covered point and NaN (absent) bounds. -/
def emptyPolygon : Polygon where
  carrier := ∅
  bounds := none
  bounds_none := fun _ => rfl
  bounds_mem := fun _ hb => Option.noConfusion hb

/-- C9: with an empty turbine list, or with an empty AOI geometry, the
calendar engine runs to completion and returns the empty result frame
(no rows, no columns); neither case is an error. -/
theorem c9_empty_turbines_or_empty_aoi {Aoi Poly : Type}
    (shadow_poly1 : ℚ → ℚ → ℚ → ℚ → ℚ → ℚ → Poly) (hit1 : Aoi → Poly → Bool)
    (solarpos1 : ℕ → ℚ × ℚ) (known1 : List String) (aoi1 : Aoi)
    (parameters1 : ProjectParameters)
    (shadow_poly2 : ℚ → ℚ → ℚ → ℚ → ℚ → ℚ → Polygon)
    (solarpos2 : ℕ → ℚ × ℚ) (known2 : List String) (aoi2 : Polygon)
    (turbines2 : List Turbine) (parameters2 : ProjectParameters)
    (haoi : aoi2.carrier = ∅) :
    compute_shadow_calendar shadow_poly1 hit1 solarpos1 known1 aoi1 []
      parameters1 = ⟨[], []⟩ ∧
    compute_shadow_calendar shadow_poly2 intersects_fast solarpos2 known2
      aoi2 turbines2 parameters2 = ⟨[], []⟩ := by
  constructor
  · have hr : (compute_shadow_calendar shadow_poly1 hit1 solarpos1 known1
        aoi1 [] parameters1).records = [] := by
      rw [compute_shadow_calendar_records]
      refine List.flatMap_eq_nil_iff.2 ?_
      intro s _
      rfl
    calc compute_shadow_calendar shadow_poly1 hit1 solarpos1 known1 aoi1 []
          parameters1
        = mkDataFrame (compute_shadow_calendar shadow_poly1 hit1 solarpos1
            known1 aoi1 [] parameters1).records := rfl
      _ = mkDataFrame [] := by rw [hr]
      _ = ⟨[], []⟩ := rfl
  · exact compute_shadow_calendar_of_no_hit shadow_poly2 intersects_fast
      solarpos2 known2 aoi2 turbines2 parameters2
      (fun p => intersects_fast_of_empty_carrier aoi2 haoi p)

/-- Witness for C9: a trivial run with no turbines, and a one-turbine
run against the empty AOI geometry. -/
theorem c9_witness :
    compute_shadow_calendar (fun _ _ _ _ _ _ => ()) (fun _ _ => true)
      (fun _ => ((10 : ℚ), (100 : ℚ))) ["UTC"] () []
      ⟨45, 10, 2024, 5, "UTC", 60⟩ = ⟨[], []⟩ ∧
    compute_shadow_calendar (fun _ _ _ _ _ _ => emptyPolygon)
      intersects_fast (fun _ => ((10 : ℚ), (100 : ℚ))) ["UTC"] emptyPolygon
      [⟨"T-1", 0, 0, 100, 120⟩] ⟨45, 10, 2024, 5, "UTC", 60⟩ = ⟨[], []⟩ :=
  c9_empty_turbines_or_empty_aoi (fun _ _ _ _ _ _ => ()) (fun _ _ => true)
    (fun _ => ((10 : ℚ), (100 : ℚ))) ["UTC"] () ⟨45, 10, 2024, 5, "UTC", 60⟩
    (fun _ _ _ _ _ _ => emptyPolygon) (fun _ => ((10 : ℚ), (100 : ℚ)))
    ["UTC"] emptyPolygon [⟨"T-1", 0, 0, 100, 120⟩]
    ⟨45, 10, 2024, 5, "UTC", 60⟩ rfl

lemma mkDataFrame_columns_iff (rows : List FlickerEvent) :
    (mkDataFrame rows).columns = flickerColumns ↔
      (mkDataFrame rows).records ≠ [] := by
  unfold mkDataFrame flickerColumns
  cases rows <;> simp

/-- C10: whenever no (timestamp, turbine) pair intersects the AOI, the
result frame has zero rows and zero columns; in general the six-column
layout is present exactly when at least one flicker event was
emitted. -/
theorem c10_empty_result_layout {Aoi1 Poly1 Aoi2 Poly2 : Type}
    (shadow_poly1 : ℚ → ℚ → ℚ → ℚ → ℚ → ℚ → Poly1)
    (hit1 : Aoi1 → Poly1 → Bool) (solarpos1 : ℕ → ℚ × ℚ)
    (known1 : List String) (aoi1 : Aoi1) (turbines1 : List Turbine)
    (parameters1 : ProjectParameters)
    (hmiss : ∀ p : Poly1, hit1 aoi1 p = false)
    (shadow_poly2 : ℚ → ℚ → ℚ → ℚ → ℚ → ℚ → Poly2)
    (hit2 : Aoi2 → Poly2 → Bool) (solarpos2 : ℕ → ℚ × ℚ)
    (known2 : List String) (aoi2 : Aoi2) (turbines2 : List Turbine)
    (parameters2 : ProjectParameters) :
    compute_shadow_calendar shadow_poly1 hit1 solarpos1 known1 aoi1
      turbines1 parameters1 = ⟨[], []⟩ ∧
    ((compute_shadow_calendar shadow_poly2 hit2 solarpos2 known2 aoi2
        turbines2 parameters2).columns = flickerColumns ↔
      (compute_shadow_calendar shadow_poly2 hit2 solarpos2 known2 aoi2
        turbines2 parameters2).records ≠ []) := by
  refine ⟨compute_shadow_calendar_of_no_hit shadow_poly1 hit1 solarpos1
    known1 aoi1 turbines1 parameters1 hmiss, ?_⟩
  exact mkDataFrame_columns_iff _

/-- Witness for C10: a never-hitting oracle on one side and an
always-hitting oracle on the other, on a concrete one-turbine project. -/
theorem c10_witness :
    compute_shadow_calendar (fun _ _ _ _ _ _ => ()) (fun _ _ => false)
      (fun _ => ((10 : ℚ), (100 : ℚ))) ["UTC"] () [⟨"T-1", 0, 0, 100, 120⟩]
      ⟨45, 10, 2024, 5, "UTC", 60⟩ = ⟨[], []⟩ ∧
    ((compute_shadow_calendar (fun _ _ _ _ _ _ => ()) (fun _ _ => true)
        (fun _ => ((10 : ℚ), (100 : ℚ))) ["UTC"] ()
        [⟨"T-1", 0, 0, 100, 120⟩] ⟨45, 10, 2024, 5, "UTC", 60⟩).columns =
        flickerColumns ↔
      (compute_shadow_calendar (fun _ _ _ _ _ _ => ()) (fun _ _ => true)
        (fun _ => ((10 : ℚ), (100 : ℚ))) ["UTC"] ()
        [⟨"T-1", 0, 0, 100, 120⟩] ⟨45, 10, 2024, 5, "UTC", 60⟩).records ≠ []) :=
  c10_empty_result_layout (fun _ _ _ _ _ _ => ()) (fun _ _ => false)
    (fun _ => ((10 : ℚ), (100 : ℚ))) ["UTC"] () [⟨"T-1", 0, 0, 100, 120⟩]
    ⟨45, 10, 2024, 5, "UTC", 60⟩ (fun _ => rfl) (fun _ _ _ _ _ _ => ())
    (fun _ _ => true) (fun _ => ((10 : ℚ), (100 : ℚ))) ["UTC"] ()
    [⟨"T-1", 0, 0, 100, 120⟩] ⟨45, 10, 2024, 5, "UTC", 60⟩

/-! ### Shadow-ellipse geometry over the reals (`core/geometry.py`) -/

noncomputable section ShadowGeometry

open Real

/-- Model of `math.radians`. -/
def radians (deg : ℝ) : ℝ :=
  deg * (π / 180)

/-- Elevation floor clamp from `shadow_ellipse_polygon`:
`max(sun_elevation_deg, 0.001)`. -/
def clampElevation (sun_elevation_deg : ℝ) : ℝ :=
  max sun_elevation_deg 0.001

/-- Segment count of the polygon produced by
`Point(center).buffer(1.0, resolution=max(16, num_points // 4))`: the
buffer of a point is a regular polygon with `resolution` vertices per
quadrant. -/
def nSegments (num_points : ℕ) : ℕ :=
  4 * max 16 (num_points / 4)

/-- Vertex ring of the unit-circle buffer polygon around `center`: a
regular `n`-gon inscribed in the unit circle. -/
def bufferUnitCircle (center : ℝ × ℝ) (n : ℕ) : List (ℝ × ℝ) :=
  (List.range n).map (fun (k : ℕ) =>
    (center.1 + Real.cos (2 * π * (k : ℝ) / (n : ℝ)),
     center.2 + Real.sin (2 * π * (k : ℝ) / (n : ℝ))))

/-- Model of `shapely.affinity.scale(geom, xfact, yfact, origin)` acting
on one vertex. -/
def scaleAbout (origin : ℝ × ℝ) (xfact yfact : ℝ) (p : ℝ × ℝ) : ℝ × ℝ :=
  (origin.1 + xfact * (p.1 - origin.1), origin.2 + yfact * (p.2 - origin.2))

/-- Model of `shapely.affinity.rotate(geom, angle_deg, origin)` acting
on one vertex: counter-clockwise rotation by `angle_deg` degrees. -/
def rotateAbout (origin : ℝ × ℝ) (angle_deg : ℝ) (p : ℝ × ℝ) : ℝ × ℝ :=
  (origin.1 + Real.cos (radians angle_deg) * (p.1 - origin.1)
    - Real.sin (radians angle_deg) * (p.2 - origin.2),
   origin.2 + Real.sin (radians angle_deg) * (p.1 - origin.1)
    + Real.cos (radians angle_deg) * (p.2 - origin.2))

/-- Model of `shadow_ellipse_polygon` from `core/geometry.py`: clamp the
elevation, compute the offset distance `d = hub / tan(elev)` and the
semi-axes `a = r / sin(elev)`, `b = r`, displace the centre opposite the
azimuth, then build the unit-circle buffer, scale it anisotropically by
`(a, b)` about the centre and rotate it by `90 - azimuth` degrees about
the centre.  The returned value is the exterior vertex ring. -/
def shadow_ellipse_polygon (turbine_x turbine_y hub_height_m rotor_radius_m
    sun_azimuth_deg sun_elevation_deg : ℝ) (num_points : ℕ) : List (ℝ × ℝ) :=
  let elevation_rad := radians (clampElevation sun_elevation_deg)
  let azimuth_rad := radians sun_azimuth_deg
  let d := hub_height_m / Real.tan elevation_rad
  let a := rotor_radius_m / Real.sin elevation_rad
  let b := rotor_radius_m
  let dx := -d * Real.sin azimuth_rad
  let dy := -d * Real.cos azimuth_rad
  let center_x := turbine_x + dx
  let center_y := turbine_y + dy
  let ellipse0 := bufferUnitCircle (center_x, center_y) (nSegments num_points)
  let ellipse1 := ellipse0.map (scaleAbout (center_x, center_y) a b)
  ellipse1.map (rotateAbout (center_x, center_y) (90 - sun_azimuth_deg))

/-- Closed-form shadow-ellipse vertex written from the specification's
wording: the centre is the turbine position displaced by
`dx = -d sin(azimuth)`, `dy = -d cos(azimuth)` with
`d = hub / tan(elevation)`; the semi-major axis `a = r / sin(elevation)`
lies along the shadow direction and the semi-minor axis is `b = r`; the
ellipse point at parameter angle `2πk/n` is rotated about the centre by
`90 - azimuth` degrees. -/
def specShadowVertex (turbine_x turbine_y hub_height_m rotor_radius_m
    sun_azimuth_deg sun_elevation_deg : ℝ) (n k : ℕ) : ℝ × ℝ :=
  let e := radians (clampElevation sun_elevation_deg)
  let d := hub_height_m / Real.tan e
  let a := rotor_radius_m / Real.sin e
  let b := rotor_radius_m
  let cx := turbine_x - d * Real.sin (radians sun_azimuth_deg)
  let cy := turbine_y - d * Real.cos (radians sun_azimuth_deg)
  let θ := radians (90 - sun_azimuth_deg)
  let φ := 2 * π * k / n
  (cx + Real.cos θ * (a * Real.cos φ) - Real.sin θ * (b * Real.sin φ),
   cy + Real.sin θ * (a * Real.cos φ) + Real.cos θ * (b * Real.sin φ))

end ShadowGeometry

/-! ### Claim C2: the constructed ellipse matches the spec formulas -/

open Real in
/-- C2: every vertex produced by the build-buffer-scale-rotate pipeline
of `shadow_ellipse_polygon` is exactly the spec's closed-form ellipse
point: centre displaced from the turbine by `(-d sin az, -d cos az)`
with `d = hub / tan(elev)` (elevation clamped to the 0.001° floor),
semi-axes `a = r / sin(elev)` and `b = r`, rotated about the centre by
`90° - azimuth`. -/
theorem c2_shadow_ellipse_matches_spec (turbine_x turbine_y hub_height_m
    rotor_radius_m sun_azimuth_deg sun_elevation_deg : ℝ) (num_points : ℕ) :
    shadow_ellipse_polygon turbine_x turbine_y hub_height_m rotor_radius_m
        sun_azimuth_deg sun_elevation_deg num_points
      = (List.range (nSegments num_points)).map
          (specShadowVertex turbine_x turbine_y hub_height_m rotor_radius_m
            sun_azimuth_deg sun_elevation_deg (nSegments num_points)) := by
  simp only [shadow_ellipse_polygon, bufferUnitCircle, List.map_map]
  refine List.map_congr_left ?_
  intro k _
  simp only [Function.comp_apply]
  unfold scaleAbout rotateAbout specShadowVertex
  dsimp only
  rw [Prod.mk.injEq]
  constructor <;> ring

/-! ### Shoelace area of the vertex ring -/

noncomputable section ShoelaceArea

open Real

/-- Planar cross product of two vertices, the shoelace building block. -/
def cross (p q : ℝ × ℝ) : ℝ :=
  p.1 * q.2 - q.1 * p.2

/-- Shoelace accumulator along a vertex list, closing back to `p0`. -/
def shoelaceAux (p0 : ℝ × ℝ) : List (ℝ × ℝ) → ℝ
  | [] => 0
  | [p] => cross p p0
  | p :: q :: rest => cross p q + shoelaceAux p0 (q :: rest)

/-- Signed shoelace area of a polygon's vertex ring. -/
def signedArea : List (ℝ × ℝ) → ℝ
  | [] => 0
  | p :: rest => shoelaceAux p (p :: rest) / 2

/-- Polygon area as the geometry library computes it: the absolute
value of the signed shoelace area. -/
def polygonArea (ps : List (ℝ × ℝ)) : ℝ :=
  |signedArea ps|

end ShoelaceArea

section ShoelaceLemmas

open Real

lemma shoelaceAux_append (p0 q : ℝ × ℝ) (l : List (ℝ × ℝ)) (hl : l ≠ []) :
    shoelaceAux p0 (l ++ [q]) = shoelaceAux q l + cross q p0 := by
  induction l with
  | nil => cases hl rfl
  | cons p rest ih =>
    cases rest with
    | nil =>
      show cross p q + cross q p0 = cross p q + cross q p0
      rfl
    | cons p2 rest2 =>
      show cross p p2 + shoelaceAux p0 ((p2 :: rest2) ++ [q])
        = (cross p p2 + shoelaceAux q (p2 :: rest2)) + cross q p0
      rw [ih (by simp)]
      ring

lemma shoelaceAux_range (f : ℕ → ℝ × ℝ) (n : ℕ) : ∀ p0 : ℝ × ℝ,
    shoelaceAux p0 ((List.range (n + 1)).map f)
      = (∑ k in Finset.range n, cross (f k) (f (k + 1))) + cross (f n) p0 := by
  induction n with
  | zero =>
    intro p0
    show cross (f 0) p0 = _
    simp
  | succ m ih =>
    intro p0
    rw [List.range_succ, List.map_append]
    simp only [List.map_cons, List.map_nil]
    rw [shoelaceAux_append p0 (f (m + 1)) _ (by simp), ih (f (m + 1)),
      Finset.sum_range_succ]

lemma signedArea_cons (p : ℝ × ℝ) (rest : List (ℝ × ℝ)) :
    signedArea (p :: rest) = shoelaceAux p (p :: rest) / 2 :=
  rfl

lemma signedArea_range (f : ℕ → ℝ × ℝ) (n : ℕ) :
    signedArea ((List.range (n + 1)).map f)
      = ((∑ k in Finset.range n, cross (f k) (f (k + 1)))
          + cross (f n) (f 0)) / 2 := by
  have h0 : (List.range (n + 1)).map f
      = f 0 :: ((List.range n).map (fun k => f (k + 1))) := by
    rw [List.range_succ_eq_map]
    simp [List.map_map, Function.comp_def, Nat.succ_eq_add_one]
  rw [h0, signedArea_cons, ← h0, shoelaceAux_range f n (f 0)]

lemma cross_center (cx cy : ℝ) (e1 e2 : ℝ × ℝ) :
    cross (cx + e1.1, cy + e1.2) (cx + e2.1, cy + e2.2)
      = cross e1 e2 + cx * (e2.2 - e1.2) + cy * (e1.1 - e2.1) := by
  unfold cross
  try dsimp only
  ring

lemma signedArea_centered (cx cy : ℝ) (e : ℕ → ℝ × ℝ) (m : ℕ) :
    signedArea ((List.range (m + 1)).map
        (fun k => (cx + (e k).1, cy + (e k).2)))
      = ((∑ k in Finset.range m, cross (e k) (e (k + 1)))
          + cross (e m) (e 0)) / 2 := by
  rw [signedArea_range]
  try dsimp only
  simp only [cross_center]
  rw [Finset.sum_add_distrib, Finset.sum_add_distrib, ← Finset.mul_sum,
    ← Finset.mul_sum, Finset.sum_range_sub (fun k => (e k).2),
    Finset.sum_range_sub' (fun k => (e k).1)]
  ring

lemma cross_ellipse_basis (θ a b φ ψ : ℝ) :
    cross (Real.cos θ * (a * Real.cos φ) - Real.sin θ * (b * Real.sin φ),
           Real.sin θ * (a * Real.cos φ) + Real.cos θ * (b * Real.sin φ))
          (Real.cos θ * (a * Real.cos ψ) - Real.sin θ * (b * Real.sin ψ),
           Real.sin θ * (a * Real.cos ψ) + Real.cos θ * (b * Real.sin ψ))
      = a * b * Real.sin (ψ - φ) := by
  unfold cross
  try dsimp only
  rw [Real.sin_sub]
  have h := Real.sin_sq_add_cos_sq θ
  linear_combination
    (a * b * (Real.cos φ * Real.sin ψ - Real.cos ψ * Real.sin φ)) * h

end ShoelaceLemmas

section ShadowArea

open Real

lemma signedArea_spec_ellipse (tx ty hub r az el : ℝ) (m : ℕ) :
    signedArea ((List.range (m + 1)).map
        (specShadowVertex tx ty hub r az el (m + 1)))
      = ((m : ℝ) + 1) * (r / Real.sin (radians (clampElevation el))) * r
        * Real.sin (2 * π / ((m : ℝ) + 1)) / 2 := by
  set θ := radians (90 - az) with hθ
  set A := r / Real.sin (radians (clampElevation el)) with hA
  set T := hub / Real.tan (radians (clampElevation el)) with hT
  set N := ((m + 1 : ℕ) : ℝ) with hNdef
  have hN0 : N ≠ 0 := by
    rw [hNdef]
    push_cast
    positivity
  have hcent := signedArea_centered (tx - T * Real.sin (radians az))
    (ty - T * Real.cos (radians az))
    (fun k : ℕ =>
      (Real.cos θ * (A * Real.cos (2 * π * (k : ℝ) / N))
         - Real.sin θ * (r * Real.sin (2 * π * (k : ℝ) / N)),
       Real.sin θ * (A * Real.cos (2 * π * (k : ℝ) / N))
         + Real.cos θ * (r * Real.sin (2 * π * (k : ℝ) / N)))) m
  dsimp only at hcent
  have hmap : (List.range (m + 1)).map
      (specShadowVertex tx ty hub r az el (m + 1))
      = (List.range (m + 1)).map (fun k : ℕ =>
        ((tx - T * Real.sin (radians az))
           + (Real.cos θ * (A * Real.cos (2 * π * (k : ℝ) / N))
              - Real.sin θ * (r * Real.sin (2 * π * (k : ℝ) / N))),
         (ty - T * Real.cos (radians az))
           + (Real.sin θ * (A * Real.cos (2 * π * (k : ℝ) / N))
              + Real.cos θ * (r * Real.sin (2 * π * (k : ℝ) / N))))) := by
    refine List.map_congr_left ?_
    intro k _
    rw [hθ, hA, hT, hNdef]
    simp only [specShadowVertex]
    try dsimp only
    rw [Prod.mk.injEq]
    constructor <;> ring
  rw [hmap, hcent]
  simp only [cross_ellipse_basis]
  push_cast
  have hstep : ∀ x : ℝ, 2 * π * (x + 1) / N - 2 * π * x / N = 2 * π / N := by
    intro x
    field_simp
    ring
  simp only [hstep]
  have hwrap : 2 * π * (0 : ℝ) / N - 2 * π * (m : ℝ) / N
      = 2 * π / N - 2 * π := by
    have hmR : (m : ℝ) = N - 1 := by
      rw [hNdef]
      push_cast
      ring
    rw [hmR]
    field_simp
    ring
  rw [hwrap, Real.sin_sub_two_pi, Finset.sum_const, Finset.card_range,
    nsmul_eq_mul, hNdef]
  push_cast
  ring

end ShadowArea

/-! ### Claims C6 and C7: positive area and totality at the horizon -/

open Real in
lemma nSegments_succ (num_points : ℕ) :
    ∃ m : ℕ, nSegments num_points = m + 1 ∧ 64 ≤ m + 1 := by
  refine ⟨nSegments num_points - 1, ?_, ?_⟩ <;>
    · unfold nSegments
      omega

open Real in
lemma signedArea_shadow (turbine_x turbine_y hub_height_m rotor_radius_m
    sun_azimuth_deg sun_elevation_deg : ℝ) (num_points : ℕ) :
    signedArea (shadow_ellipse_polygon turbine_x turbine_y hub_height_m
        rotor_radius_m sun_azimuth_deg sun_elevation_deg num_points)
      = (nSegments num_points : ℝ)
        * (rotor_radius_m
            / Real.sin (radians (clampElevation sun_elevation_deg)))
        * rotor_radius_m
        * Real.sin (2 * π / (nSegments num_points : ℝ)) / 2 := by
  obtain ⟨m, hm, _⟩ := nSegments_succ num_points
  rw [c2_shadow_ellipse_matches_spec, hm, signedArea_spec_ellipse]
  push_cast
  ring

open Real in
lemma clamp_sin_pos (sun_elevation_deg : ℝ) (h90 : sun_elevation_deg ≤ 90) :
    0 < Real.sin (radians (clampElevation sun_elevation_deg)) := by
  have hc1 : 0 < clampElevation sun_elevation_deg :=
    lt_of_lt_of_le (by norm_num) (le_max_right _ _)
  have hc2 : clampElevation sun_elevation_deg ≤ 90 :=
    max_le h90 (by norm_num)
  have h1 : 0 < radians (clampElevation sun_elevation_deg) := by
    unfold radians
    exact mul_pos hc1 (by positivity)
  have h2 : radians (clampElevation sun_elevation_deg) < π := by
    unfold radians
    nlinarith [Real.pi_pos]
  exact Real.sin_pos_of_pos_of_lt_pi h1 h2

section GeometryClaims

open Real

/-- C6: for every turbine position, positive hub height, positive rotor
radius, azimuth, sun elevation in (0°, 90°] and vertex-count request,
the shadow ellipse polygon has strictly positive area. -/
theorem c6_shadow_area_positive (turbine_x turbine_y hub_height_m
    rotor_radius_m sun_azimuth_deg sun_elevation_deg : ℝ) (num_points : ℕ)
    (hhub : 0 < hub_height_m) (hr : 0 < rotor_radius_m)
    (hel : 0 < sun_elevation_deg) (hel90 : sun_elevation_deg ≤ 90) :
    0 < polygonArea (shadow_ellipse_polygon turbine_x turbine_y hub_height_m
      rotor_radius_m sun_azimuth_deg sun_elevation_deg num_points) := by
  obtain ⟨m, hm, hm64⟩ := nSegments_succ num_points
  have hsin := clamp_sin_pos sun_elevation_deg hel90
  have hnR : (2 : ℝ) < (nSegments num_points : ℝ) := by
    have : 2 < nSegments num_points := by omega
    exact_mod_cast this
  have hsin2 : 0 < Real.sin (2 * π / (nSegments num_points : ℝ)) := by
    refine Real.sin_pos_of_pos_of_lt_pi ?_ ?_
    · refine div_pos (by positivity) (by linarith)
    · rw [div_lt_iff (by linarith)]
      nlinarith [Real.pi_pos]
  have hval : 0 < (nSegments num_points : ℝ)
      * (rotor_radius_m
          / Real.sin (radians (clampElevation sun_elevation_deg)))
      * rotor_radius_m
      * Real.sin (2 * π / (nSegments num_points : ℝ)) / 2 := by
    refine div_pos ?_ (by norm_num)
    exact mul_pos (mul_pos (mul_pos (by linarith) (div_pos hr hsin)) hr) hsin2
  unfold polygonArea
  rw [signedArea_shadow, abs_of_pos hval]
  exact hval

/-- Witness for C6 on the repository's own test case: turbine at the
origin, hub 100 m, rotor radius 60 m, azimuth 180°, elevation 20°. -/
theorem c6_witness :
    0 < polygonArea (shadow_ellipse_polygon 0 0 100 60 180 20 64) :=
  c6_shadow_area_positive 0 0 100 60 180 20 64 (by norm_num) (by norm_num)
    (by norm_num) (by norm_num)

/-- C7: for every finite sun elevation at or below the horizon, the
floor clamp pins the elevation to 0.001°, both trigonometric
denominators are strictly positive (no division blow-up), the shadow
length `d` and semi-major axis `a` are positive finite reals, and the
builder still returns its full vertex ring (it is a total function and
never raises). -/
theorem c7_total_below_horizon (turbine_x turbine_y hub_height_m
    rotor_radius_m sun_azimuth_deg sun_elevation_deg : ℝ) (num_points : ℕ)
    (hel : sun_elevation_deg ≤ 0) (hhub : 0 < hub_height_m)
    (hr : 0 < rotor_radius_m) :
    clampElevation sun_elevation_deg = 0.001 ∧
    0 < Real.tan (radians (clampElevation sun_elevation_deg)) ∧
    0 < Real.sin (radians (clampElevation sun_elevation_deg)) ∧
    0 < hub_height_m
      / Real.tan (radians (clampElevation sun_elevation_deg)) ∧
    0 < rotor_radius_m
      / Real.sin (radians (clampElevation sun_elevation_deg)) ∧
    (shadow_ellipse_polygon turbine_x turbine_y hub_height_m rotor_radius_m
      sun_azimuth_deg sun_elevation_deg num_points).length
      = nSegments num_points := by
  have hclamp : clampElevation sun_elevation_deg = 0.001 :=
    max_eq_right (by norm_num; linarith)
  have hrad1 : 0 < radians (clampElevation sun_elevation_deg) := by
    rw [hclamp]
    unfold radians
    positivity
  have hrad2 : radians (clampElevation sun_elevation_deg) < π / 2 := by
    rw [hclamp]
    unfold radians
    nlinarith [Real.pi_pos]
  have htan : 0 < Real.tan (radians (clampElevation sun_elevation_deg)) :=
    Real.tan_pos_of_pos_of_lt_pi_div_two hrad1 hrad2
  have hsin : 0 < Real.sin (radians (clampElevation sun_elevation_deg)) :=
    Real.sin_pos_of_pos_of_lt_pi hrad1
      (lt_trans hrad2 (by linarith [Real.pi_pos]))
  refine ⟨hclamp, htan, hsin, div_pos hhub htan, div_pos hr hsin, ?_⟩
  rw [c2_shadow_ellipse_matches_spec, List.length_map, List.length_range]

/-- Witness for C7 at elevation −5° (sun below the horizon), hub 100 m,
rotor radius 60 m. -/
theorem c7_witness :
    clampElevation (-5) = 0.001 ∧
    0 < Real.tan (radians (clampElevation (-5))) ∧
    0 < Real.sin (radians (clampElevation (-5))) ∧
    0 < (100 : ℝ) / Real.tan (radians (clampElevation (-5))) ∧
    0 < (60 : ℝ) / Real.sin (radians (clampElevation (-5))) ∧
    (shadow_ellipse_polygon 0 0 100 60 180 (-5) 64).length = nSegments 64 :=
  c7_total_below_horizon 0 0 100 60 180 (-5) 64 (by norm_num) (by norm_num)
    (by norm_num)

end GeometryClaims

/-! ### Bounding box of the vertex ring -/

noncomputable section BoundsDefs

/-- Running minimum of a list of reals, seeded with `x`. -/
def foldMin (x : ℝ) (l : List ℝ) : ℝ :=
  l.foldl min x

/-- Running maximum of a list of reals, seeded with `x`. -/
def foldMax (x : ℝ) (l : List ℝ) : ℝ :=
  l.foldl max x

/-- Model of the `.bounds` property `(minx, miny, maxx, maxy)` of a
polygon given by its vertex ring (degenerate zeros for the empty
list). -/
def boundsOf : List (ℝ × ℝ) → ℝ × ℝ × ℝ × ℝ
  | [] => (0, 0, 0, 0)
  | p :: rest =>
    (foldMin p.1 (rest.map Prod.fst), foldMin p.2 (rest.map Prod.snd),
     foldMax p.1 (rest.map Prod.fst), foldMax p.2 (rest.map Prod.snd))

/-- Width of the axis-aligned bounding box, `maxx - minx`. -/
def bboxWidth (ps : List (ℝ × ℝ)) : ℝ :=
  (boundsOf ps).2.2.1 - (boundsOf ps).1

/-- Height of the axis-aligned bounding box, `maxy - miny`. -/
def bboxHeight (ps : List (ℝ × ℝ)) : ℝ :=
  (boundsOf ps).2.2.2 - (boundsOf ps).2.1

end BoundsDefs

section BoundsLemmas

lemma foldMax_ge_init (x : ℝ) (l : List ℝ) : x ≤ foldMax x l := by
  induction l generalizing x with
  | nil => exact le_refl x
  | cons a l ih => exact le_trans (le_max_left x a) (ih (max x a))

lemma foldMax_ge_mem (x y : ℝ) (l : List ℝ) (hy : y ∈ l) :
    y ≤ foldMax x l := by
  induction l generalizing x with
  | nil => cases hy
  | cons a l ih =>
    rcases List.mem_cons.1 hy with rfl | h
    · exact le_trans (le_max_right x y) (foldMax_ge_init _ _)
    · exact ih (max x a) h

lemma foldMax_le (x M : ℝ) (l : List ℝ) (hx : x ≤ M)
    (hall : ∀ y ∈ l, y ≤ M) : foldMax x l ≤ M := by
  induction l generalizing x with
  | nil => exact hx
  | cons a l ih =>
    exact ih (max x a) (max_le hx (hall a (List.mem_cons_self a l)))
      (fun y hy => hall y (List.mem_cons_of_mem a hy))

lemma foldMax_eq_of (x M : ℝ) (l : List ℝ) (hall : ∀ y ∈ l, y ≤ M)
    (hx : x ≤ M) (hatt : x = M ∨ M ∈ l) : foldMax x l = M := by
  refine le_antisymm (foldMax_le x M l hx hall) ?_
  rcases hatt with rfl | h
  · exact foldMax_ge_init _ _
  · exact foldMax_ge_mem _ _ _ h

lemma foldMin_le_init (x : ℝ) (l : List ℝ) : foldMin x l ≤ x := by
  induction l generalizing x with
  | nil => exact le_refl x
  | cons a l ih => exact le_trans (ih (min x a)) (min_le_left x a)

lemma foldMin_le_mem (x y : ℝ) (l : List ℝ) (hy : y ∈ l) :
    foldMin x l ≤ y := by
  induction l generalizing x with
  | nil => cases hy
  | cons a l ih =>
    rcases List.mem_cons.1 hy with rfl | h
    · exact le_trans (foldMin_le_init (min x y) l) (min_le_right x y)
    · exact ih (min x a) h

lemma le_foldMin (x M : ℝ) (l : List ℝ) (hx : M ≤ x)
    (hall : ∀ y ∈ l, M ≤ y) : M ≤ foldMin x l := by
  induction l generalizing x with
  | nil => exact hx
  | cons a l ih =>
    exact ih (min x a) (le_min hx (hall a (List.mem_cons_self a l)))
      (fun y hy => hall y (List.mem_cons_of_mem a hy))

lemma foldMin_eq_of (x M : ℝ) (l : List ℝ) (hall : ∀ y ∈ l, M ≤ y)
    (hx : M ≤ x) (hatt : x = M ∨ M ∈ l) : foldMin x l = M := by
  refine le_antisymm ?_ (le_foldMin x M l hx hall)
  rcases hatt with rfl | h
  · exact foldMin_le_init _ _
  · exact foldMin_le_mem _ _ _ h

end BoundsLemmas

section BboxForm

open Real

lemma map_range_cons (f : ℕ → ℝ × ℝ) (n : ℕ) :
    (List.range (n + 1)).map f
      = f 0 :: ((List.range n).map (fun k => f (k + 1))) := by
  rw [List.range_succ_eq_map]
  simp [List.map_map, Function.comp_def, Nat.succ_eq_add_one]

lemma boundsOf_form (c1 s1 c2 s2 : ℝ) (g1 g2 : ℕ → ℝ) (n : ℕ) :
    boundsOf ((List.range (n + 1)).map
        (fun k => (c1 + s1 * g1 k, c2 + s2 * g2 k)))
      = (foldMin (c1 + s1 * g1 0)
           ((List.range n).map (fun k => c1 + s1 * g1 (k + 1))),
         foldMin (c2 + s2 * g2 0)
           ((List.range n).map (fun k => c2 + s2 * g2 (k + 1))),
         foldMax (c1 + s1 * g1 0)
           ((List.range n).map (fun k => c1 + s1 * g1 (k + 1))),
         foldMax (c2 + s2 * g2 0)
           ((List.range n).map (fun k => c2 + s2 * g2 (k + 1)))) := by
  rw [map_range_cons]
  simp only [boundsOf, List.map_map]
  rfl

lemma bboxWidth_form (c1 s1 c2 s2 : ℝ) (g1 g2 : ℕ → ℝ) (n : ℕ)
    (hs1 : 0 < s1) (hb : ∀ k : ℕ, -1 ≤ g1 k ∧ g1 k ≤ 1)
    (hmax : g1 0 = 1 ∨ ∃ k : ℕ, k < n ∧ g1 (k + 1) = 1)
    (hmin : g1 0 = -1 ∨ ∃ k : ℕ, k < n ∧ g1 (k + 1) = -1) :
    bboxWidth ((List.range (n + 1)).map
      (fun k => (c1 + s1 * g1 k, c2 + s2 * g2 k))) = 2 * s1 := by
  unfold bboxWidth
  rw [boundsOf_form]
  dsimp only
  have hallmax : ∀ y ∈ (List.range n).map (fun k => c1 + s1 * g1 (k + 1)),
      y ≤ c1 + s1 := by
    intro y hy
    obtain ⟨k, _, rfl⟩ := List.mem_map.1 hy
    nlinarith [(hb (k + 1)).2]
  have hallmin : ∀ y ∈ (List.range n).map (fun k => c1 + s1 * g1 (k + 1)),
      c1 - s1 ≤ y := by
    intro y hy
    obtain ⟨k, _, rfl⟩ := List.mem_map.1 hy
    nlinarith [(hb (k + 1)).1]
  have hM : foldMax (c1 + s1 * g1 0)
      ((List.range n).map (fun k => c1 + s1 * g1 (k + 1))) = c1 + s1 := by
    refine foldMax_eq_of _ _ _ hallmax (by nlinarith [(hb 0).2]) ?_
    rcases hmax with h | ⟨k, hk, hk1⟩
    · left
      rw [h]
      ring
    · right
      refine List.mem_map.2 ⟨k, List.mem_range.2 hk, ?_⟩
      rw [hk1]
      ring
  have hm : foldMin (c1 + s1 * g1 0)
      ((List.range n).map (fun k => c1 + s1 * g1 (k + 1))) = c1 - s1 := by
    refine foldMin_eq_of _ _ _ hallmin (by nlinarith [(hb 0).1]) ?_
    rcases hmin with h | ⟨k, hk, hk1⟩
    · left
      rw [h]
      ring
    · right
      refine List.mem_map.2 ⟨k, List.mem_range.2 hk, ?_⟩
      rw [hk1]
      ring
  rw [hM, hm]
  ring

lemma bboxHeight_form (c1 s1 c2 s2 : ℝ) (g1 g2 : ℕ → ℝ) (n : ℕ)
    (hs2 : 0 < s2) (hb : ∀ k : ℕ, -1 ≤ g2 k ∧ g2 k ≤ 1)
    (hmax : g2 0 = 1 ∨ ∃ k : ℕ, k < n ∧ g2 (k + 1) = 1)
    (hmin : g2 0 = -1 ∨ ∃ k : ℕ, k < n ∧ g2 (k + 1) = -1) :
    bboxHeight ((List.range (n + 1)).map
      (fun k => (c1 + s1 * g1 k, c2 + s2 * g2 k))) = 2 * s2 := by
  unfold bboxHeight
  rw [boundsOf_form]
  dsimp only
  have hallmax : ∀ y ∈ (List.range n).map (fun k => c2 + s2 * g2 (k + 1)),
      y ≤ c2 + s2 := by
    intro y hy
    obtain ⟨k, _, rfl⟩ := List.mem_map.1 hy
    nlinarith [(hb (k + 1)).2]
  have hallmin : ∀ y ∈ (List.range n).map (fun k => c2 + s2 * g2 (k + 1)),
      c2 - s2 ≤ y := by
    intro y hy
    obtain ⟨k, _, rfl⟩ := List.mem_map.1 hy
    nlinarith [(hb (k + 1)).1]
  have hM : foldMax (c2 + s2 * g2 0)
      ((List.range n).map (fun k => c2 + s2 * g2 (k + 1))) = c2 + s2 := by
    refine foldMax_eq_of _ _ _ hallmax (by nlinarith [(hb 0).2]) ?_
    rcases hmax with h | ⟨k, hk, hk1⟩
    · left
      rw [h]
      ring
    · right
      refine List.mem_map.2 ⟨k, List.mem_range.2 hk, ?_⟩
      rw [hk1]
      ring
  have hm : foldMin (c2 + s2 * g2 0)
      ((List.range n).map (fun k => c2 + s2 * g2 (k + 1))) = c2 - s2 := by
    refine foldMin_eq_of _ _ _ hallmin (by nlinarith [(hb 0).1]) ?_
    rcases hmin with h | ⟨k, hk, hk1⟩
    · left
      rw [h]
      ring
    · right
      refine List.mem_map.2 ⟨k, List.mem_range.2 hk, ?_⟩
      rw [hk1]
      ring
  rw [hM, hm]
  ring

end BboxForm

/-! ### Claim C8: the bounding box depends on the azimuth -/

section ClaimC8

open Real

lemma nSegments_64 : nSegments 64 = 63 + 1 := by
  unfold nSegments
  rfl

lemma cos_angle_zero : Real.cos (2 * π * ((0 : ℕ) : ℝ) / 64) = 1 := by
  rw [show 2 * π * ((0 : ℕ) : ℝ) / 64 = 0 by push_cast; ring, Real.cos_zero]

lemma cos_angle_32 : Real.cos (2 * π * ((31 + 1 : ℕ) : ℝ) / 64) = -1 := by
  rw [show 2 * π * ((31 + 1 : ℕ) : ℝ) / 64 = π by push_cast; ring, Real.cos_pi]

lemma sin_angle_16 : Real.sin (2 * π * ((15 + 1 : ℕ) : ℝ) / 64) = 1 := by
  rw [show 2 * π * ((15 + 1 : ℕ) : ℝ) / 64 = π / 2 by push_cast; ring,
    Real.sin_pi_div_two]

lemma sin_angle_48 : Real.sin (2 * π * ((47 + 1 : ℕ) : ℝ) / 64) = -1 := by
  rw [show 2 * π * ((47 + 1 : ℕ) : ℝ) / 64 = -(π / 2) + 2 * π by
      push_cast; ring,
    Real.sin_add_two_pi, Real.sin_neg, Real.sin_pi_div_two]

/-- C8: for every turbine position, hub height and positive rotor
radius, the default-resolution shadow polygons for azimuth 90° and for
azimuth 180° at elevation 25° have different bounding-box widths and
different bounding-box heights: rotating the shadow orientation with the
azimuth changes the bounding box. -/
theorem c8_bbox_depends_on_azimuth (turbine_x turbine_y hub_height_m
    rotor_radius_m : ℝ) (hr : 0 < rotor_radius_m) :
    bboxWidth (shadow_ellipse_polygon turbine_x turbine_y hub_height_m
        rotor_radius_m 90 25 64)
      ≠ bboxWidth (shadow_ellipse_polygon turbine_x turbine_y hub_height_m
        rotor_radius_m 180 25 64) ∧
    bboxHeight (shadow_ellipse_polygon turbine_x turbine_y hub_height_m
        rotor_radius_m 90 25 64)
      ≠ bboxHeight (shadow_ellipse_polygon turbine_x turbine_y hub_height_m
        rotor_radius_m 180 25 64) := by
  have hclamp : clampElevation 25 = 25 := max_eq_left (by norm_num)
  have hs0 : 0 < Real.sin (radians (clampElevation 25)) :=
    clamp_sin_pos 25 (by norm_num)
  have hs1 : Real.sin (radians (clampElevation 25)) < 1 := by
    have hx0 : 0 < radians (clampElevation 25) := by
      rw [hclamp]
      unfold radians
      positivity
    have hx1 : radians (clampElevation 25) < 1 := by
      rw [hclamp]
      unfold radians
      nlinarith [Real.pi_lt_315]
    have := Real.sin_lt hx0
    linarith
  set a := rotor_radius_m / Real.sin (radians (clampElevation 25)) with hadef
  have ha : 0 < a := div_pos hr hs0
  have har : rotor_radius_m < a := by
    rw [hadef, lt_div_iff hs0]
    nlinarith
  set cx1 := turbine_x - hub_height_m
    / Real.tan (radians (clampElevation 25)) * Real.sin (radians 90) with hcx1
  set cy1 := turbine_y - hub_height_m
    / Real.tan (radians (clampElevation 25)) * Real.cos (radians 90) with hcy1
  set cx2 := turbine_x - hub_height_m
    / Real.tan (radians (clampElevation 25)) * Real.sin (radians 180) with hcx2
  set cy2 := turbine_y - hub_height_m
    / Real.tan (radians (clampElevation 25)) * Real.cos (radians 180) with hcy2
  have hP1 : shadow_ellipse_polygon turbine_x turbine_y hub_height_m
      rotor_radius_m 90 25 64
      = (List.range (63 + 1)).map (fun k : ℕ =>
          (cx1 + a * Real.cos (2 * π * (k : ℝ) / 64),
           cy1 + rotor_radius_m * Real.sin (2 * π * (k : ℝ) / 64))) := by
    rw [c2_shadow_ellipse_matches_spec, nSegments_64]
    refine List.map_congr_left ?_
    intro k _
    rw [hcx1, hcy1, hadef]
    simp only [specShadowVertex]
    try dsimp only
    rw [Prod.mk.injEq]
    have hθ : radians (90 - (90 : ℝ)) = 0 := by
      unfold radians
      ring
    have hc : ((63 + 1 : ℕ) : ℝ) = (64 : ℝ) := by norm_num
    rw [hθ, Real.cos_zero, Real.sin_zero, hc]
    constructor <;> ring
  have hP2 : shadow_ellipse_polygon turbine_x turbine_y hub_height_m
      rotor_radius_m 180 25 64
      = (List.range (63 + 1)).map (fun k : ℕ =>
          (cx2 + rotor_radius_m * Real.sin (2 * π * (k : ℝ) / 64),
           cy2 + a * (-Real.cos (2 * π * (k : ℝ) / 64)))) := by
    rw [c2_shadow_ellipse_matches_spec, nSegments_64]
    refine List.map_congr_left ?_
    intro k _
    rw [hcx2, hcy2, hadef]
    simp only [specShadowVertex]
    try dsimp only
    rw [Prod.mk.injEq]
    have hθ : radians (90 - (180 : ℝ)) = -(π / 2) := by
      unfold radians
      ring
    have hc : ((63 + 1 : ℕ) : ℝ) = (64 : ℝ) := by norm_num
    rw [hθ, Real.cos_neg, Real.sin_neg, Real.cos_pi_div_two,
      Real.sin_pi_div_two, hc]
    constructor <;> ring
  have hbcos : ∀ k : ℕ, -1 ≤ Real.cos (2 * π * (k : ℝ) / 64)
      ∧ Real.cos (2 * π * (k : ℝ) / 64) ≤ 1 :=
    fun k => ⟨Real.neg_one_le_cos _, Real.cos_le_one _⟩
  have hbsin : ∀ k : ℕ, -1 ≤ Real.sin (2 * π * (k : ℝ) / 64)
      ∧ Real.sin (2 * π * (k : ℝ) / 64) ≤ 1 :=
    fun k => ⟨Real.neg_one_le_sin _, Real.sin_le_one _⟩
  have hbnegcos : ∀ k : ℕ, -1 ≤ -Real.cos (2 * π * (k : ℝ) / 64)
      ∧ -Real.cos (2 * π * (k : ℝ) / 64) ≤ 1 := by
    intro k
    constructor
    · linarith [Real.cos_le_one (2 * π * (k : ℝ) / 64)]
    · linarith [Real.neg_one_le_cos (2 * π * (k : ℝ) / 64)]
  have hw1 : bboxWidth (shadow_ellipse_polygon turbine_x turbine_y
      hub_height_m rotor_radius_m 90 25 64) = 2 * a := by
    rw [hP1]
    exact bboxWidth_form cx1 a cy1 rotor_radius_m
      (fun k : ℕ => Real.cos (2 * π * (k : ℝ) / 64))
      (fun k : ℕ => Real.sin (2 * π * (k : ℝ) / 64)) 63 ha hbcos
      (Or.inl cos_angle_zero) (Or.inr ⟨31, by norm_num, cos_angle_32⟩)
  have hh1 : bboxHeight (shadow_ellipse_polygon turbine_x turbine_y
      hub_height_m rotor_radius_m 90 25 64) = 2 * rotor_radius_m := by
    rw [hP1]
    exact bboxHeight_form cx1 a cy1 rotor_radius_m
      (fun k : ℕ => Real.cos (2 * π * (k : ℝ) / 64))
      (fun k : ℕ => Real.sin (2 * π * (k : ℝ) / 64)) 63 hr hbsin
      (Or.inr ⟨15, by norm_num, sin_angle_16⟩)
      (Or.inr ⟨47, by norm_num, sin_angle_48⟩)
  have hw2 : bboxWidth (shadow_ellipse_polygon turbine_x turbine_y
      hub_height_m rotor_radius_m 180 25 64) = 2 * rotor_radius_m := by
    rw [hP2]
    exact bboxWidth_form cx2 rotor_radius_m cy2 a
      (fun k : ℕ => Real.sin (2 * π * (k : ℝ) / 64))
      (fun k : ℕ => -Real.cos (2 * π * (k : ℝ) / 64)) 63 hr hbsin
      (Or.inr ⟨15, by norm_num, sin_angle_16⟩)
      (Or.inr ⟨47, by norm_num, sin_angle_48⟩)
  have hh2 : bboxHeight (shadow_ellipse_polygon turbine_x turbine_y
      hub_height_m rotor_radius_m 180 25 64) = 2 * a := by
    rw [hP2]
    exact bboxHeight_form cx2 rotor_radius_m cy2 a
      (fun k : ℕ => Real.sin (2 * π * (k : ℝ) / 64))
      (fun k : ℕ => -Real.cos (2 * π * (k : ℝ) / 64)) 63 ha hbnegcos
      (Or.inr ⟨31, by norm_num,
        by show -Real.cos (2 * π * ((31 + 1 : ℕ) : ℝ) / 64) = 1
           rw [cos_angle_32]
           norm_num⟩)
      (Or.inl (by show -Real.cos (2 * π * ((0 : ℕ) : ℝ) / 64) = -1
                  rw [cos_angle_zero]))
  refine ⟨?_, ?_⟩
  · rw [hw1, hw2]
    intro h
    linarith
  · rw [hh1, hh2]
    intro h
    linarith

/-- Witness for C8 on the repository's own test values: turbine at the
origin, hub 100 m, rotor radius 50 m. -/
theorem c8_witness :
    bboxWidth (shadow_ellipse_polygon 0 0 100 50 90 25 64)
      ≠ bboxWidth (shadow_ellipse_polygon 0 0 100 50 180 25 64) ∧
    bboxHeight (shadow_ellipse_polygon 0 0 100 50 90 25 64)
      ≠ bboxHeight (shadow_ellipse_polygon 0 0 100 50 180 25 64) :=
  c8_bbox_depends_on_azimuth 0 0 100 50 (by norm_num)

end ClaimC8
